import Mathlib

/-!
Shallow embedding of the keyword-forward Telegram bot (`main.py` of the
repository). The process-wide `State` class is a Lean structure; the
command handlers and the forward logic become pure state-transition
functions. External Telegram calls (`get_messages`, `copy_message`) are
abstracted by an environment of oracles, the calls made are traced, and
the replies sent back to the trigger chat are collected in a list.
The `asyncio.Lock` is modelled by splitting `forward_next_if_ready` into
the unguarded prefix (`forwardPhaseA`, lines 232-237 of `main.py`) and
the lock-guarded body (`forwardGuardedBody`, lines 238-265); the lock's
mutual exclusion is reflected by composing guarded bodies sequentially
in the interleaving models.
-/

namespace KFB

/-- Characters of a string with leading and trailing whitespace removed,
mirroring Python `str.strip()` as used by `int(...)`. -/
def stripWs (cs : List Char) : List Char :=
  ((cs.dropWhile Char.isWhitespace).reverse.dropWhile Char.isWhitespace).reverse

/-- Value of a list of decimal digits. -/
def digitsVal (cs : List Char) : Nat :=
  cs.foldl (fun a c => a * 10 + (c.toNat - 48)) 0

/-- Sign-and-digits part of Python `int(str)` parsing. -/
def pyIntSigned : List Char → Option Int
  | [] => none
  | '+' :: cs => if !cs.isEmpty && cs.all Char.isDigit then some (digitsVal cs) else none
  | '-' :: cs => if !cs.isEmpty && cs.all Char.isDigit then some (-(digitsVal cs : Int)) else none
  | cs => if cs.all Char.isDigit then some (digitsVal cs) else none

/-- Python `int(...)` on an ASCII decimal string: optional surrounding
whitespace, an optional sign, then at least one digit. `none` models the
`ValueError` raised for anything else. -/
def pyInt (str : String) : Option Int :=
  pyIntSigned (stripWs str.data)

/-- Python substring test `needle in hay` on character lists. -/
def isSubstr (needle hay : List Char) : Bool :=
  (List.range (hay.length + 1)).any fun i => needle.isPrefixOf (hay.drop i)

/-- Python `needle in hay` for strings. -/
def strIn (needle hay : String) : Bool :=
  isSubstr needle.data hay.data

/-- Python `str.lower()`, modelled for ASCII letters via `Char.toLower`
(the code only compares a user-chosen keyword case-insensitively). -/
def pyLower (s : String) : String :=
  String.mk (s.data.map Char.toLower)

/-- The process-wide mutable `State` class of `main.py`. The `lock` field
is modelled by the guarded/unguarded split of `forward_next_if_ready`; the
`custom_replies` dict is an insertion-ordered association list. -/
structure State where
  source_chat_id : Option Int := none
  target_chat_id : Option Int := none
  start_id : Option Int := none
  end_id : Option Int := none
  next_id : Option Int := none
  keyword : String := "Completed"
  custom_replies : List (String × String) := []
deriving DecidableEq

/-- The state at process start: all optional fields unset, default keyword. -/
def initState : State := {}

/-- `ready_to_forward()` of `main.py` (lines 94-103): the readiness gate. -/
def ready_to_forward (s : State) : Bool × String :=
  if s.source_chat_id = none then (false, "Source not set. Use /setsource")
  else if s.target_chat_id = none then (false, "Target not set. Use /settarget")
  else if s.start_id = none ∨ s.end_id = none then
    (false, "Range not set. Use /setrange <first_id> <last_id>")
  else if s.next_id = none then (false, "Internal: next_id not initialized")
  else (true, "OK")

/-- `cmd_set_source` (lines 113-126). The chat-resolution and permission
checks happen in the external layer; `resolved = some cid` models their
success with resolved chat id `cid`, and `none` models every failure path,
each of which leaves the state unchanged. -/
def cmd_set_source (s : State) (resolved : Option Int) : State :=
  match resolved with
  | some cid => { s with source_chat_id := some cid }
  | none => s

/-- `cmd_set_target` (lines 128-141), analogous to `cmd_set_source`. -/
def cmd_set_target (s : State) (resolved : Option Int) : State :=
  match resolved with
  | some cid => { s with target_chat_id := some cid }
  | none => s

/-- `cmd_set_range` (lines 143-157). `command` is Pyrogram's `m.command`
(command name first, then the arguments). Returns the new state and the
reply text. -/
def cmd_set_range (s : State) (command : List String) : State × String :=
  match command with
  | _ :: first :: last :: _ =>
    (match pyInt first, pyInt last with
     | some a, some b =>
       let lo := min a b
       let hi := max a b
       ({ s with start_id := some lo, end_id := some hi, next_id := some lo },
        "✅ Range set to `" ++ toString lo ++ ".." ++ toString hi ++ "` (next: "
          ++ toString lo ++ ")")
     | _, _ => (s, "❌ first_id and last_id must be integers"))
  | _ => (s, "Usage: /setrange <first_id> <last_id>")

/-- `cmd_set_keyword` (lines 159-164): joins the arguments with spaces and
strips surrounding whitespace. -/
def cmd_set_keyword (s : State) (command : List String) : State × String :=
  match command with
  | _ :: a :: rest =>
    let kw := (String.intercalate " " (a :: rest)).trim
    ({ s with keyword := kw }, "✅ Keyword set to: `" ++ kw ++ "`")
  | _ => (s, "Usage: /setkeyword <text>\nExample: /setkeyword Completed")

/-- `cmd_reset` (lines 219-228): clears every field back to the defaults. -/
def cmd_reset (_s : State) : State :=
  { source_chat_id := none, target_chat_id := none, start_id := none,
    end_id := none, next_id := none, keyword := "Completed", custom_replies := [] }

/-- Result of `client.get_messages(source, id)`: a message, an empty result
(`not msg or msg.empty`), or one of the exceptions the handler catches. -/
inductive FetchResult where
  | found
  | missing
  | flood (seconds : Nat)
  | rpcErr (detail : String)
  | exn (detail : String)
deriving DecidableEq

/-- Result of `client.copy_message(target, source, id)`. -/
inductive CopyResult where
  | ok
  | flood (seconds : Nat)
  | rpcErr (detail : String)
  | exn (detail : String)
deriving DecidableEq

/-- Oracles for the external Telegram calls. The chat arguments are the raw
optional fields exactly as the code passes them. -/
structure Env where
  fetch : Option Int → Int → FetchResult
  copy : Option Int → Option Int → Int → CopyResult

/-- Trace entry for an external call made during a forward attempt. -/
inductive ExtCall where
  | getMessages (chat : Option Int) (msgId : Int)
  | copyMessage (toChat : Option Int) (fromChat : Option Int) (msgId : Int)
  | sleep (seconds : Nat)
deriving DecidableEq

/-- Observable outcome of one run of `forward_next_if_ready`. -/
inductive Outcome where
  | wrongChat
  | notReady (reason : String)
  | guardRecheckFail
  | rangeExhausted
  | skippedMissing (id : Int)
  | forwarded (id : Int)
  | rateLimited (seconds : Nat)
  | rpcErrorOn (id : Int) (detail : String)
  | unexpectedErrorOn (id : Int) (detail : String)
deriving DecidableEq

/-- State after a forward attempt together with its outcome, the external
calls made, and the replies sent to the trigger chat, in order. -/
structure FwdResult where
  state : State
  outcome : Outcome
  calls : List ExtCall
  replies : List String
deriving DecidableEq

/-- Body of `async with State.lock:` in `forward_next_if_ready` (lines
238-265 of `main.py`): the silent in-guard re-check of the three optional
fields, the exhaustion check, the fetch, the copy, and the three exception
handlers (`FloodWait`, `RPCError`, bare `Exception`). -/
def forwardGuardedBody (env : Env) (s : State) : FwdResult :=
  match s.next_id, s.start_id, s.end_id with
  | some n, some _, some e =>
    if n > e then
      { state := s, outcome := .rangeExhausted, calls := [],
        replies := ["✅ All messages in the range have already been forwarded."] }
    else
      match env.fetch s.source_chat_id n with
      | .missing =>
        { state := { s with next_id := some (n + 1) }, outcome := .skippedMissing n,
          calls := [.getMessages s.source_chat_id n],
          replies := ["⚠️ Skipping missing message ID " ++ toString n] }
      | .flood d =>
        { state := s, outcome := .rateLimited d,
          calls := [.getMessages s.source_chat_id n, .sleep d],
          replies := ["⏳ FloodWait: sleeping " ++ toString d ++ "s"] }
      | .rpcErr detail =>
        { state := { s with next_id := some (n + 1) }, outcome := .rpcErrorOn n detail,
          calls := [.getMessages s.source_chat_id n],
          replies := ["❌ Forward error on ID " ++ toString n ++ ": " ++ detail] }
      | .exn detail =>
        { state := { s with next_id := some (n + 1) }, outcome := .unexpectedErrorOn n detail,
          calls := [.getMessages s.source_chat_id n],
          replies := ["❌ Unexpected error on ID " ++ toString n ++ ": " ++ detail] }
      | .found =>
        match env.copy s.target_chat_id s.source_chat_id n with
        | .ok =>
          { state := { s with next_id := some (n + 1) }, outcome := .forwarded n,
            calls := [.getMessages s.source_chat_id n,
                      .copyMessage s.target_chat_id s.source_chat_id n],
            replies := ["➡️ Forwarded message `" ++ toString n ++ "`"] }
        | .flood d =>
          { state := s, outcome := .rateLimited d,
            calls := [.getMessages s.source_chat_id n,
                      .copyMessage s.target_chat_id s.source_chat_id n, .sleep d],
            replies := ["⏳ FloodWait: sleeping " ++ toString d ++ "s"] }
        | .rpcErr detail =>
          { state := { s with next_id := some (n + 1) }, outcome := .rpcErrorOn n detail,
            calls := [.getMessages s.source_chat_id n,
                      .copyMessage s.target_chat_id s.source_chat_id n],
            replies := ["❌ Forward error on ID " ++ toString n ++ ": " ++ detail] }
        | .exn detail =>
          { state := { s with next_id := some (n + 1) },
            outcome := .unexpectedErrorOn n detail,
            calls := [.getMessages s.source_chat_id n,
                      .copyMessage s.target_chat_id s.source_chat_id n],
            replies := ["❌ Unexpected error on ID " ++ toString n ++ ": " ++ detail] }
  | _, _, _ => { state := s, outcome := .guardRecheckFail, calls := [], replies := [] }

/-- Part of `forward_next_if_ready` executed before the lock is acquired
(lines 232-237): the trigger-chat check and the readiness-gate call with
its "Not ready" reply. `none` means control reaches `async with State.lock`. -/
def forwardPhaseA (s : State) (chatId : Int) : Option (Outcome × List String) :=
  match s.target_chat_id with
  | none => some (.wrongChat, [])
  | some t =>
    if chatId ≠ t then some (.wrongChat, [])
    else
      match ready_to_forward s with
      | (false, why) => some (.notReady why, ["⚠️ Not ready to forward: " ++ why])
      | (true, _) => none

/-- `forward_next_if_ready` (lines 231-265): the unguarded prefix followed,
when it falls through, by the lock-guarded body. For a trigger task running
with no interleaved task this is their sequential composition. -/
def forward_next_if_ready (env : Env) (s : State) (chatId : Int) : FwdResult :=
  match forwardPhaseA s chatId with
  | some (o, rs) => { state := s, outcome := o, calls := [], replies := rs }
  | none => forwardGuardedBody env s

/-- Outcomes of two racing trigger tasks and the final state. -/
structure PairResult where
  o1 : Outcome
  o2 : Outcome
  state : State
deriving DecidableEq

/-- Two trigger tasks that both run the unguarded prefix against the same
state `s` (the racy interleaving the lock exists for), after which the
lock serializes the guarded bodies, the first task entering first. -/
def concurrentPair (env : Env) (s : State) (c1 c2 : Int) : PairResult :=
  match forwardPhaseA s c1, forwardPhaseA s c2 with
  | some (o1, _), some (o2, _) => { o1 := o1, o2 := o2, state := s }
  | some (o1, _), none =>
    let r := forwardGuardedBody env s
    { o1 := o1, o2 := r.outcome, state := r.state }
  | none, some (o2, _) =>
    let r := forwardGuardedBody env s
    { o1 := r.outcome, o2 := o2, state := r.state }
  | none, none =>
    let r1 := forwardGuardedBody env s
    let r2 := forwardGuardedBody env r1.state
    { o1 := r1.outcome, o2 := r2.outcome, state := r2.state }

/-- A sequence of trigger events (given by their origin chat ids) handled
one after the other. -/
def runTriggers (env : Env) : State → List Int → State × List Outcome
  | s, [] => (s, [])
  | s, c :: cs =>
    let r := forward_next_if_ready env s c
    let p := runTriggers env r.state cs
    (p.1, r.outcome :: p.2)

/-- Message IDs reported as forwarded, in order of occurrence. -/
def forwardedIds (os : List Outcome) : List Int :=
  os.filterMap fun o =>
    match o with
    | Outcome.forwarded i => some i
    | _ => none

/-- `on_text` (lines 268-281): the custom auto-replies pass, then the
forward-keyword check. Returns the auto-replies sent and, when
`forward_next_if_ready` was invoked, its result. A message without text is
modelled by `text = ""` (Python `if not m.text: return`). -/
def on_text (env : Env) (s : State) (chatId : Int) (text : String) :
    List String × Option FwdResult :=
  if text = "" then ([], none)
  else
    let textLower := pyLower text
    let auto := (s.custom_replies.filter fun p => strIn p.1 textLower).map fun p => p.2
    if s.keyword ≠ "" ∧ strIn (pyLower s.keyword) textLower = true then
      (auto, some (forward_next_if_ready env s chatId))
    else
      (auto, none)

/-- Cursor evolution relation: an unset cursor stays unset, a set cursor
never decreases. -/
def cursorLE : Option Int → Option Int → Prop
  | none, b => b = none
  | some n, b => ∃ m, b = some m ∧ n ≤ m

/-- The spec's state invariant: a set cursor implies both range bounds are
set and `rangeStart ≤ cursor`. -/
def StInv (s : State) : Prop :=
  ∀ n, s.next_id = some n →
    ∃ lo hi, s.start_id = some lo ∧ s.end_id = some hi ∧ lo ≤ n

/-- An environment in which every fetch finds a message and every copy
succeeds. -/
def envAllOk (env : Env) : Prop :=
  (∀ c i, env.fetch c i = .found) ∧ (∀ t f i, env.copy t f i = .ok)

/-- A fully configured state: source 100, target 200, range 10..12, cursor 10. -/
def readyS : State :=
  { source_chat_id := some 100, target_chat_id := some 200, start_id := some 10,
    end_id := some 12, next_id := some 10, keyword := "Completed",
    custom_replies := [] }

/-- Environment where every external call succeeds. -/
def envOk : Env := { fetch := fun _ _ => .found, copy := fun _ _ _ => .ok }

/-- Environment where every fetch raises `FloodWait(5)`. -/
def envFlood : Env := { fetch := fun _ _ => .flood 5, copy := fun _ _ _ => .ok }

/-- Environment where every fetch returns an empty result. -/
def envMissing : Env := { fetch := fun _ _ => .missing, copy := fun _ _ _ => .ok }

/-- Environment where every copy raises an `RPCError`. -/
def envRpc : Env := { fetch := fun _ _ => .found, copy := fun _ _ _ => .rpcErr "boom" }

/-- Formalization of claim C2 as stated: the readiness gate of step 1 is
executed inside the guard's exclusive section, that is, the guarded body
itself re-evaluates the gate on the state it sees and, when the gate fails,
emits the "not ready" reply. -/
def C2_claimed : Prop :=
  ∀ env s, (ready_to_forward s).1 = false →
    (forwardGuardedBody env s).outcome = Outcome.notReady (ready_to_forward s).2 ∧
    (forwardGuardedBody env s).replies =
      ["⚠️ Not ready to forward: " ++ (ready_to_forward s).2]

/-! ### Helper lemmas about the readiness gate and the phases of a forward
attempt. -/

/-- The readiness gate passes exactly when all five optional fields are set. -/
theorem ready_true_iff (s : State) :
    (ready_to_forward s).1 = true ↔
      s.source_chat_id ≠ none ∧ s.target_chat_id ≠ none ∧ s.start_id ≠ none ∧
        s.end_id ≠ none ∧ s.next_id ≠ none := by
  unfold ready_to_forward
  split_ifs <;> simp_all <;> tauto

/-- The unguarded prefix falls through to the lock exactly when the trigger
chat is the target chat and the gate passes. -/
theorem phaseA_none_iff (s : State) (c : Int) :
    forwardPhaseA s c = none ↔
      s.target_chat_id = some c ∧ (ready_to_forward s).1 = true := by
  unfold forwardPhaseA
  rcases ht : s.target_chat_id with _ | t
  · simp
  · by_cases hc : c = t
    · subst hc
      rcases hr : ready_to_forward s with ⟨b, w⟩
      cases b <;> simp [hr]
    · simp [hc, Ne.symm hc]

/-- An early return from the unguarded prefix is a wrong-chat ignore or a
not-ready report. -/
theorem phaseA_some_outcome (s : State) (c : Int) (o : Outcome) (rs : List String)
    (h : forwardPhaseA s c = some (o, rs)) :
    o = Outcome.wrongChat ∨ ∃ w, o = Outcome.notReady w := by
  unfold forwardPhaseA at h
  split at h <;> (try split at h) <;> (try split at h) <;>
    simp only [Option.some.injEq, Prod.mk.injEq, reduceCtorEq] at h <;>
    first
    | exact Or.inl h.1.symm
    | exact Or.inr ⟨_, h.1.symm⟩

/-- Shape of one guarded-body execution: either the state is unchanged and
the outcome is the silent re-check failure, exhaustion, or a rate limit, or
the cursor was `some n` and only the cursor advanced, to `n + 1`. -/
theorem body_main (env : Env) (s : State) :
    ((forwardGuardedBody env s).state = s ∧
      (((forwardGuardedBody env s).outcome = Outcome.guardRecheckFail ∨
        (forwardGuardedBody env s).outcome = Outcome.rangeExhausted) ∧
        (forwardGuardedBody env s).calls = [] ∨
       ∃ d, (forwardGuardedBody env s).outcome = Outcome.rateLimited d)) ∨
    ∃ n, s.next_id = some n ∧
      (forwardGuardedBody env s).state = { s with next_id := some (n + 1) } ∧
      ((forwardGuardedBody env s).outcome = Outcome.forwarded n ∨
       (forwardGuardedBody env s).outcome = Outcome.skippedMissing n ∨
       (∃ m, (forwardGuardedBody env s).outcome = Outcome.rpcErrorOn n m) ∨
       (∃ m, (forwardGuardedBody env s).outcome = Outcome.unexpectedErrorOn n m)) := by
  unfold forwardGuardedBody
  split
  · split
    · exact Or.inl ⟨rfl, Or.inl ⟨Or.inr rfl, rfl⟩⟩
    · split <;> (try split) <;>
        first
        | exact Or.inr ⟨_, by assumption, rfl, by simp⟩
        | exact Or.inl ⟨rfl, Or.inr ⟨_, rfl⟩⟩
  · exact Or.inl ⟨rfl, Or.inl ⟨Or.inl rfl, rfl⟩⟩

/-- Shape of one full run of `forward_next_if_ready`: unchanged-state
outcomes versus the cursor advancing by exactly one. -/
theorem F_main (env : Env) (s : State) (c : Int) :
    ((forward_next_if_ready env s c).state = s ∧
      (((forward_next_if_ready env s c).outcome = Outcome.wrongChat ∨
        (∃ w, (forward_next_if_ready env s c).outcome = Outcome.notReady w) ∨
        (forward_next_if_ready env s c).outcome = Outcome.guardRecheckFail ∨
        (forward_next_if_ready env s c).outcome = Outcome.rangeExhausted) ∧
        (forward_next_if_ready env s c).calls = [] ∨
       ∃ d, (forward_next_if_ready env s c).outcome = Outcome.rateLimited d)) ∨
    ∃ n, s.next_id = some n ∧
      (forward_next_if_ready env s c).state = { s with next_id := some (n + 1) } ∧
      ((forward_next_if_ready env s c).outcome = Outcome.forwarded n ∨
       (forward_next_if_ready env s c).outcome = Outcome.skippedMissing n ∨
       (∃ m, (forward_next_if_ready env s c).outcome = Outcome.rpcErrorOn n m) ∨
       (∃ m, (forward_next_if_ready env s c).outcome = Outcome.unexpectedErrorOn n m)) := by
  unfold forward_next_if_ready
  rcases hp : forwardPhaseA s c with _ | p
  · rcases body_main env s with ⟨h1, ⟨ho, hc⟩ | hd⟩ | h3
    · exact Or.inl ⟨h1, Or.inl ⟨by tauto, hc⟩⟩
    · exact Or.inl ⟨h1, Or.inr hd⟩
    · exact Or.inr h3
  · obtain ⟨o, rs⟩ := p
    rcases phaseA_some_outcome s c o rs hp with h1 | ⟨w, h1⟩ <;> subst h1
    · exact Or.inl ⟨rfl, Or.inl ⟨Or.inl rfl, rfl⟩⟩
    · exact Or.inl ⟨rfl, Or.inl ⟨Or.inr (Or.inl ⟨w, rfl⟩), rfl⟩⟩

/-- A forward attempt leaves the state unchanged or advances only the
cursor, by one. -/
theorem F_cases (env : Env) (s : State) (c : Int) :
    (forward_next_if_ready env s c).state = s ∨
      ∃ n, s.next_id = some n ∧
        (forward_next_if_ready env s c).state = { s with next_id := some (n + 1) } := by
  rcases F_main env s c with ⟨h, _⟩ | ⟨n, hn, h, _⟩
  · exact Or.inl h
  · exact Or.inr ⟨n, hn, h⟩

/-- A forward attempt never touches any field but the cursor. -/
theorem F_frame (env : Env) (s : State) (c : Int) :
    (forward_next_if_ready env s c).state.source_chat_id = s.source_chat_id ∧
    (forward_next_if_ready env s c).state.target_chat_id = s.target_chat_id ∧
    (forward_next_if_ready env s c).state.start_id = s.start_id ∧
    (forward_next_if_ready env s c).state.end_id = s.end_id ∧
    (forward_next_if_ready env s c).state.keyword = s.keyword ∧
    (forward_next_if_ready env s c).state.custom_replies = s.custom_replies := by
  rcases F_cases env s c with h | ⟨n, _, h⟩ <;> rw [h] <;> simp

/-- An attempt that reports `forwarded i` read the cursor at `i` and moved
it to `i + 1`. -/
theorem F_forwarded (env : Env) (s : State) (c : Int) (i : Int)
    (h : (forward_next_if_ready env s c).outcome = Outcome.forwarded i) :
    s.next_id = some i ∧
      (forward_next_if_ready env s c).state = { s with next_id := some (i + 1) } := by
  rcases F_main env s c with ⟨h1, ⟨ho, _⟩ | ⟨d, ho⟩⟩ | ⟨n, hn, hst, ho⟩
  · rcases ho with ho | ⟨w, ho⟩ | ho | ho <;> rw [h] at ho <;> cases ho
  · rw [h] at ho; cases ho
  · rcases ho with ho | ho | ⟨m, ho⟩ | ⟨m, ho⟩ <;> rw [h] at ho <;> cases ho <;>
      exact ⟨hn, hst⟩

/-- Guarded-body analogue of `F_forwarded`. -/
theorem body_forwarded (env : Env) (s : State) (i : Int)
    (h : (forwardGuardedBody env s).outcome = Outcome.forwarded i) :
    s.next_id = some i ∧
      (forwardGuardedBody env s).state = { s with next_id := some (i + 1) } := by
  rcases body_main env s with ⟨h1, ⟨ho, _⟩ | ⟨d, ho⟩⟩ | ⟨n, hn, hst, ho⟩
  · rcases ho with ho | ho <;> rw [h] at ho <;> cases ho
  · rw [h] at ho; cases ho
  · rcases ho with ho | ho | ⟨m, ho⟩ | ⟨m, ho⟩ <;> rw [h] at ho <;> cases ho <;>
      exact ⟨hn, hst⟩

/-- Cursor component of `F_cases`. -/
theorem F_next_cases (env : Env) (s : State) (c : Int) :
    (forward_next_if_ready env s c).state.next_id = s.next_id ∨
      ∃ n, s.next_id = some n ∧
        (forward_next_if_ready env s c).state.next_id = some (n + 1) := by
  rcases F_cases env s c with h | ⟨n, hn, h⟩
  · exact Or.inl (by rw [h])
  · exact Or.inr ⟨n, hn, by rw [h]⟩

theorem cursorLE_refl (a : Option Int) : cursorLE a a := by
  cases a <;> simp [cursorLE]

theorem cursorLE_trans {a b c : Option Int} (h1 : cursorLE a b) (h2 : cursorLE b c) :
    cursorLE a c := by
  cases a with
  | none => simp only [cursorLE] at h1; subst h1; exact h2
  | some n =>
    obtain ⟨m, hb, hnm⟩ := h1
    subst hb
    obtain ⟨k, hc, hmk⟩ := h2
    exact ⟨k, hc, le_trans hnm hmk⟩

/-- One forward attempt never decreases a set cursor and never sets an
unset one. -/
theorem F_cursorLE (env : Env) (s : State) (c : Int) :
    cursorLE s.next_id (forward_next_if_ready env s c).state.next_id := by
  rcases F_next_cases env s c with h | ⟨n, hn, h⟩
  · rw [h]; exact cursorLE_refl _
  · rw [hn, h]; exact ⟨n + 1, rfl, by omega⟩

/-- Over a whole trigger sequence, every field but the cursor is unchanged
and the cursor never decreases. -/
theorem runTriggers_frame_mono (env : Env) (cs : List Int) :
    ∀ s : State,
      (runTriggers env s cs).1.source_chat_id = s.source_chat_id ∧
      (runTriggers env s cs).1.target_chat_id = s.target_chat_id ∧
      (runTriggers env s cs).1.start_id = s.start_id ∧
      (runTriggers env s cs).1.end_id = s.end_id ∧
      (runTriggers env s cs).1.keyword = s.keyword ∧
      (runTriggers env s cs).1.custom_replies = s.custom_replies ∧
      cursorLE s.next_id (runTriggers env s cs).1.next_id := by
  induction cs with
  | nil =>
    intro s
    exact ⟨rfl, rfl, rfl, rfl, rfl, rfl, cursorLE_refl _⟩
  | cons c cs ih =>
    intro s
    have hF := F_frame env s c
    have hC := F_cursorLE env s c
    have hI := ih (forward_next_if_ready env s c).state
    simp only [runTriggers]
    exact ⟨hI.1.trans hF.1, hI.2.1.trans hF.2.1, hI.2.2.1.trans hF.2.2.1,
           hI.2.2.2.1.trans hF.2.2.2.1, hI.2.2.2.2.1.trans hF.2.2.2.2.1,
           hI.2.2.2.2.2.1.trans hF.2.2.2.2.2,
           cursorLE_trans hC hI.2.2.2.2.2.2⟩

theorem forwardedIds_cons_fwd (i : Int) (os : List Outcome) :
    forwardedIds (Outcome.forwarded i :: os) = i :: forwardedIds os := rfl

theorem forwardedIds_cons_other (o : Outcome) (os : List Outcome)
    (h : ∀ i, o ≠ Outcome.forwarded i) :
    forwardedIds (o :: os) = forwardedIds os := by
  cases o <;> simp [forwardedIds, List.filterMap_cons] <;> exact absurd rfl (h _)

/-- IDs forwarded by a trigger sequence starting at cursor `n` are all
at least `n`. -/
theorem runTriggers_fwd_lb (env : Env) (cs : List Int) :
    ∀ (s : State) (n : Int), s.next_id = some n →
      ∀ i ∈ forwardedIds (runTriggers env s cs).2, n ≤ i := by
  induction cs with
  | nil => intro s n _ i hi; simp [runTriggers, forwardedIds] at hi
  | cons c cs ih =>
    intro s n hn i hi
    simp only [runTriggers] at hi
    by_cases hf : ∃ j, (forward_next_if_ready env s c).outcome = Outcome.forwarded j
    · obtain ⟨j, hj⟩ := hf
      rw [hj, forwardedIds_cons_fwd] at hi
      obtain ⟨hjn, hst⟩ := F_forwarded env s c j hj
      rw [hn] at hjn
      injection hjn with hjn
      rcases List.mem_cons.mp hi with rfl | hi2
      · omega
      · have := ih (forward_next_if_ready env s c).state (j + 1) (by rw [hst]) i hi2
        omega
    · push_neg at hf
      rw [forwardedIds_cons_other _ _ hf] at hi
      rcases F_next_cases env s c with h | ⟨m, hm, h⟩
      · exact ih _ n (h.trans hn) i hi
      · rw [hn] at hm
        injection hm with hm
        subst hm
        have := ih _ (n + 1) h i hi
        omega

/-- The IDs forwarded over any fixed trigger sequence are strictly
increasing. -/
theorem runTriggers_pairwise (env : Env) (cs : List Int) :
    ∀ s : State, List.Pairwise (fun a b : Int => a < b)
      (forwardedIds (runTriggers env s cs).2) := by
  induction cs with
  | nil => intro s; simp [runTriggers, forwardedIds]
  | cons c cs ih =>
    intro s
    simp only [runTriggers]
    by_cases hf : ∃ j, (forward_next_if_ready env s c).outcome = Outcome.forwarded j
    · obtain ⟨j, hj⟩ := hf
      rw [hj, forwardedIds_cons_fwd]
      refine List.Pairwise.cons ?_ (ih _)
      intro b hb
      obtain ⟨-, hst⟩ := F_forwarded env s c j hj
      have := runTriggers_fwd_lb env cs (forward_next_if_ready env s c).state (j + 1)
        (by rw [hst]) b hb
      omega
    · push_neg at hf
      rw [forwardedIds_cons_other _ _ hf]
      exact ih _

/-- Under the racy double-trigger interleaving, no message ID is ever
forwarded by both tasks. -/
theorem concurrentPair_no_double (env : Env) (s : State) (c1 c2 : Int) (i : Int) :
    ¬((concurrentPair env s c1 c2).o1 = Outcome.forwarded i ∧
      (concurrentPair env s c1 c2).o2 = Outcome.forwarded i) := by
  unfold concurrentPair
  rcases hp1 : forwardPhaseA s c1 with _ | ⟨o1, rs1⟩ <;>
    rcases hp2 : forwardPhaseA s c2 with _ | ⟨o2, rs2⟩
  · rintro ⟨h1, h2⟩
    obtain ⟨hn1, hs1⟩ := body_forwarded env s i h1
    have h2a : (forwardGuardedBody env (forwardGuardedBody env s).state).outcome =
        Outcome.forwarded i := h2
    rw [hs1] at h2a
    obtain ⟨hn2, -⟩ := body_forwarded env _ i h2a
    have hn2a : some (i + 1) = some i := hn2
    injection hn2a with hi
    omega
  · rintro ⟨-, h2⟩
    rcases phaseA_some_outcome s c2 o2 rs2 hp2 with h | ⟨w, h⟩ <;> subst h <;> simp at h2
  · rintro ⟨h1, -⟩
    rcases phaseA_some_outcome s c1 o1 rs1 hp1 with h | ⟨w, h⟩ <;> subst h <;> simp at h1
  · rintro ⟨h1, -⟩
    rcases phaseA_some_outcome s c1 o1 rs1 hp1 with h | ⟨w, h⟩ <;> subst h <;> simp at h1

/-- The gate passes on a state with all five fields set. -/
theorem ready_of_some (s : State) (src t a e n : Int)
    (hsrc : s.source_chat_id = some src) (ht : s.target_chat_id = some t)
    (ha : s.start_id = some a) (he : s.end_id = some e) (hn : s.next_id = some n) :
    (ready_to_forward s).1 = true := by
  simp [ready_to_forward, hsrc, ht, ha, he, hn]

theorem phaseA_none_of (s : State) (t : Int)
    (ht : s.target_chat_id = some t) (hr : (ready_to_forward s).1 = true) :
    forwardPhaseA s t = none :=
  (phaseA_none_iff s t).mpr ⟨ht, hr⟩

/-- Guarded body on an exhausted in-range state. -/
theorem body_exhausted (env : Env) (s : State) (a e n : Int)
    (ha : s.start_id = some a) (he : s.end_id = some e) (hn : s.next_id = some n)
    (hgt : n > e) :
    forwardGuardedBody env s =
      { state := s, outcome := Outcome.rangeExhausted, calls := [],
        replies := ["✅ All messages in the range have already been forwarded."] } := by
  simp only [forwardGuardedBody, hn, ha, he]
  rw [if_pos hgt]

/-- Guarded body when the fetch finds the message and the copy succeeds. -/
theorem body_success (env : Env) (s : State) (src t a e n : Int)
    (hsrc : s.source_chat_id = some src) (ht : s.target_chat_id = some t)
    (ha : s.start_id = some a) (he : s.end_id = some e) (hn : s.next_id = some n)
    (hle : n ≤ e)
    (hf : env.fetch (some src) n = FetchResult.found)
    (hcp : env.copy (some t) (some src) n = CopyResult.ok) :
    forwardGuardedBody env s =
      { state := { s with next_id := some (n + 1) }, outcome := Outcome.forwarded n,
        calls := [ExtCall.getMessages (some src) n,
                  ExtCall.copyMessage (some t) (some src) n],
        replies := ["➡️ Forwarded message `" ++ toString n ++ "`"] } := by
  simp only [forwardGuardedBody, hn, ha, he, hsrc, ht]
  rw [if_neg (by omega : ¬n > e), hf, hcp]

/-- Guarded body when the fetch yields an empty result. -/
theorem body_missing (env : Env) (s : State) (src a e n : Int)
    (hsrc : s.source_chat_id = some src)
    (ha : s.start_id = some a) (he : s.end_id = some e) (hn : s.next_id = some n)
    (hle : n ≤ e)
    (hf : env.fetch (some src) n = FetchResult.missing) :
    forwardGuardedBody env s =
      { state := { s with next_id := some (n + 1) }, outcome := Outcome.skippedMissing n,
        calls := [ExtCall.getMessages (some src) n],
        replies := ["⚠️ Skipping missing message ID " ++ toString n] } := by
  simp only [forwardGuardedBody, hn, ha, he, hsrc]
  rw [if_neg (by omega : ¬n > e), hf]

/-- Full forward attempt from the target chat when fetch and copy succeed. -/
theorem F_success (env : Env) (s : State) (src t a e n : Int)
    (hsrc : s.source_chat_id = some src) (ht : s.target_chat_id = some t)
    (ha : s.start_id = some a) (he : s.end_id = some e) (hn : s.next_id = some n)
    (hle : n ≤ e)
    (hf : env.fetch (some src) n = FetchResult.found)
    (hcp : env.copy (some t) (some src) n = CopyResult.ok) :
    forward_next_if_ready env s t =
      { state := { s with next_id := some (n + 1) }, outcome := Outcome.forwarded n,
        calls := [ExtCall.getMessages (some src) n,
                  ExtCall.copyMessage (some t) (some src) n],
        replies := ["➡️ Forwarded message `" ++ toString n ++ "`"] } := by
  unfold forward_next_if_ready
  rw [phaseA_none_of s t ht (ready_of_some s src t a e n hsrc ht ha he hn)]
  exact body_success env s src t a e n hsrc ht ha he hn hle hf hcp

/-- Full forward attempt from the target chat when the fetch yields an
empty result. -/
theorem F_missing (env : Env) (s : State) (src t a e n : Int)
    (hsrc : s.source_chat_id = some src) (ht : s.target_chat_id = some t)
    (ha : s.start_id = some a) (he : s.end_id = some e) (hn : s.next_id = some n)
    (hle : n ≤ e)
    (hf : env.fetch (some src) n = FetchResult.missing) :
    forward_next_if_ready env s t =
      { state := { s with next_id := some (n + 1) }, outcome := Outcome.skippedMissing n,
        calls := [ExtCall.getMessages (some src) n],
        replies := ["⚠️ Skipping missing message ID " ++ toString n] } := by
  unfold forward_next_if_ready
  rw [phaseA_none_of s t ht (ready_of_some s src t a e n hsrc ht ha he hn)]
  exact body_missing env s src a e n hsrc ha he hn hle hf

/-- Inversion: an advancing outcome at ID `i` read the cursor at `i` and
moved it to `i + 1`, all other fields untouched. -/
theorem F_advancing (env : Env) (s : State) (c : Int) (i : Int)
    (h : (forward_next_if_ready env s c).outcome = Outcome.forwarded i ∨
         (forward_next_if_ready env s c).outcome = Outcome.skippedMissing i ∨
         (∃ m, (forward_next_if_ready env s c).outcome = Outcome.rpcErrorOn i m) ∨
         (∃ m, (forward_next_if_ready env s c).outcome = Outcome.unexpectedErrorOn i m)) :
    s.next_id = some i ∧
      (forward_next_if_ready env s c).state = { s with next_id := some (i + 1) } := by
  rcases F_main env s c with ⟨h1, ⟨ho, -⟩ | ⟨d, ho⟩⟩ | ⟨n, hn, hst, ho⟩
  · exfalso
    rcases ho with ho | ⟨w, ho⟩ | ho | ho <;>
      rcases h with h | h | ⟨m, h⟩ | ⟨m, h⟩ <;> rw [h] at ho <;> cases ho
  · exfalso
    rcases h with h | h | ⟨m, h⟩ | ⟨m, h⟩ <;> rw [h] at ho <;> cases ho
  · rcases ho with ho | ho | ⟨m, ho⟩ | ⟨m, ho⟩ <;>
      rcases h with h | h | ⟨m2, h⟩ | ⟨m2, h⟩ <;> rw [h] at ho <;> cases ho <;>
      exact ⟨hn, hst⟩

/-- Inversion: the early-return and exhausted outcomes leave the whole
state unchanged. -/
theorem F_unchanged (env : Env) (s : State) (c : Int)
    (h : (forward_next_if_ready env s c).outcome = Outcome.wrongChat ∨
         (∃ w, (forward_next_if_ready env s c).outcome = Outcome.notReady w) ∨
         (forward_next_if_ready env s c).outcome = Outcome.guardRecheckFail ∨
         (forward_next_if_ready env s c).outcome = Outcome.rangeExhausted) :
    (forward_next_if_ready env s c).state = s := by
  rcases F_main env s c with ⟨h1, -⟩ | ⟨n, hn, hst, ho⟩
  · exact h1
  · exfalso
    rcases ho with ho | ho | ⟨m, ho⟩ | ⟨m, ho⟩ <;>
      rcases h with h | ⟨w, h⟩ | h | h <;> rw [h] at ho <;> cases ho

/-- Inversion: a rate-limited attempt leaves the whole state unchanged. -/
theorem F_rateLimited (env : Env) (s : State) (c : Int) (d : Nat)
    (h : (forward_next_if_ready env s c).outcome = Outcome.rateLimited d) :
    (forward_next_if_ready env s c).state = s := by
  rcases F_main env s c with ⟨h1, -⟩ | ⟨n, hn, hst, ho⟩
  · exact h1
  · exfalso
    rcases ho with ho | ho | ⟨m, ho⟩ | ⟨m, ho⟩ <;> rw [h] at ho <;> cases ho

/-- Inversion: an attempt that made an external call yet left the state
unchanged was rate-limited. -/
theorem F_calls_unchanged (env : Env) (s : State) (c : Int)
    (hc : (forward_next_if_ready env s c).calls ≠ [])
    (hs : (forward_next_if_ready env s c).state = s) :
    ∃ d, (forward_next_if_ready env s c).outcome = Outcome.rateLimited d := by
  rcases F_main env s c with ⟨h1, ⟨-, hcE⟩ | hd⟩ | ⟨n, hn, hst, -⟩
  · exact absurd hcE hc
  · exact hd
  · exfalso
    rw [hst] at hs
    have h2 := congrArg State.next_id hs
    rw [hn] at h2
    have h3 : some (n + 1) = some n := h2
    injection h3 with h3
    omega

/-- The guarded body never reports the wrong-chat outcome. -/
theorem body_not_wrongChat (env : Env) (s : State) :
    (forwardGuardedBody env s).outcome ≠ Outcome.wrongChat := by
  rcases body_main env s with ⟨-, ⟨ho, -⟩ | ⟨d, ho⟩⟩ | ⟨n, -, -, ho⟩
  · rcases ho with ho | ho <;> rw [ho] <;> simp
  · rw [ho]; simp
  · rcases ho with ho | ho | ⟨m, ho⟩ | ⟨m, ho⟩ <;> rw [ho] <;> simp

/-- When the trigger chat is the target chat, the unguarded prefix either
falls through to the lock or reports not-ready. -/
theorem phaseA_matched (s : State) (c : Int) (ht : s.target_chat_id = some c) :
    forwardPhaseA s c = none ∨
      ∃ w, forwardPhaseA s c =
        some (Outcome.notReady w, ["⚠️ Not ready to forward: " ++ w]) := by
  have hcc : ¬(c ≠ c) := fun hh => hh rfl
  unfold forwardPhaseA
  rw [ht]
  rcases hg : ready_to_forward s with ⟨b, w⟩
  cases b
  · right; exact ⟨w, by simp [hcc, hg]⟩
  · left; simp [hcc, hg]

/-- A trigger from the target chat never yields the wrong-chat outcome. -/
theorem F_not_wrongChat (env : Env) (s : State) (c : Int)
    (ht : s.target_chat_id = some c) :
    (forward_next_if_ready env s c).outcome ≠ Outcome.wrongChat := by
  unfold forward_next_if_ready
  rcases phaseA_matched s c ht with hp | ⟨w, hp⟩ <;> rw [hp]
  · exact body_not_wrongChat env s
  · simp

/-- A trigger whose outcome is not the wrong-chat ignore came from the
target chat. -/
theorem F_target_of_not_wrongChat (env : Env) (s : State) (c : Int)
    (h : (forward_next_if_ready env s c).outcome ≠ Outcome.wrongChat) :
    s.target_chat_id = some c := by
  by_contra hne
  have hp : forwardPhaseA s c = some (Outcome.wrongChat, []) := by
    unfold forwardPhaseA
    rcases ht : s.target_chat_id with _ | t
    · rfl
    · rw [ht] at hne
      have hct : c ≠ t := fun hh => hne (by rw [hh])
      simp [hct]
  unfold forward_next_if_ready at h
  rw [hp] at h
  exact h rfl

/-! ### Claim theorems -/

/-- C1: under the racy interleaving in which two concurrent triggers both
run their unguarded prefix against the same state, (a) no message ID is
ever forwarded by both tasks; (b) if both observe `cursor = N` on a ready
state with `N ≤ rangeEnd` and all external calls succeed, the first task
forwards exactly `N` and the second forwards `N + 1` or observes range
exhaustion; (c) over any fixed trigger sequence the forwarded message IDs
are strictly increasing (hence each forwarded at most once). -/
theorem C1_no_double_forward_and_increasing :
    (∀ env s c1 c2 i,
        ¬((concurrentPair env s c1 c2).o1 = Outcome.forwarded i ∧
          (concurrentPair env s c1 c2).o2 = Outcome.forwarded i)) ∧
    (∀ env s src t a e N,
        envAllOk env →
        s.source_chat_id = some src → s.target_chat_id = some t →
        s.start_id = some a → s.end_id = some e → s.next_id = some N → N ≤ e →
        (concurrentPair env s t t).o1 = Outcome.forwarded N ∧
        ((concurrentPair env s t t).o2 = Outcome.forwarded (N + 1) ∨
         (concurrentPair env s t t).o2 = Outcome.rangeExhausted)) ∧
    (∀ env s cs, List.Pairwise (fun a b : Int => a < b)
        (forwardedIds (runTriggers env s cs).2)) := by
  refine ⟨concurrentPair_no_double, ?_, fun env s cs => runTriggers_pairwise env cs s⟩
  intro env s src t a e N hok hsrc ht ha he hn hle
  have hA : forwardPhaseA s t = none :=
    phaseA_none_of s t ht (ready_of_some s src t a e N hsrc ht ha he hn)
  have hb1 := body_success env s src t a e N hsrc ht ha he hn hle (hok.1 _ _) (hok.2 _ _ _)
  unfold concurrentPair
  rw [hA]
  constructor
  · show (forwardGuardedBody env s).outcome = Outcome.forwarded N
    rw [hb1]
  · show (forwardGuardedBody env (forwardGuardedBody env s).state).outcome =
        Outcome.forwarded (N + 1) ∨
      (forwardGuardedBody env (forwardGuardedBody env s).state).outcome =
        Outcome.rangeExhausted
    rw [hb1]
    show (forwardGuardedBody env { s with next_id := some (N + 1) }).outcome =
        Outcome.forwarded (N + 1) ∨
      (forwardGuardedBody env { s with next_id := some (N + 1) }).outcome =
        Outcome.rangeExhausted
    by_cases hle2 : N + 1 ≤ e
    · left
      rw [body_success env { s with next_id := some (N + 1) } src t a e (N + 1)
        hsrc ht ha he rfl hle2 (hok.1 _ _) (hok.2 _ _ _)]
    · right
      rw [body_exhausted env { s with next_id := some (N + 1) } a e (N + 1)
        ha he rfl (by omega)]

/-- Witness for C1 part (b): on the concrete ready state with range
`10..12` and cursor `10`, two racing triggers from the target chat forward
`10` and then `11`. -/
theorem C1_witness :
    envAllOk envOk ∧
    (concurrentPair envOk readyS 200 200).o1 = Outcome.forwarded 10 ∧
    ((concurrentPair envOk readyS 200 200).o2 = Outcome.forwarded 11 ∨
     (concurrentPair envOk readyS 200 200).o2 = Outcome.rangeExhausted) := by
  have hok : envAllOk envOk := ⟨fun _ _ => rfl, fun _ _ _ => rfl⟩
  have h := C1_no_double_forward_and_increasing.2.1 envOk readyS 100 200 10 12 10 hok
    rfl rfl rfl rfl rfl (by decide)
  refine ⟨hok, h.1, ?_⟩
  rcases h.2 with h2 | h2
  · left; rw [h2]; decide
  · right; exact h2

/-- C2 counterexample: the readiness gate, with its "not ready" reply, runs
in the unguarded prefix, before the lock is acquired (last conjunct); and
the guarded body, executed on a state on which the gate fails (the state
right after a reset), does not re-run the gate: it returns silently with
the re-check outcome and no reply, instead of emitting the not-ready
report the claim requires inside the exclusive section. -/
theorem C2_counterexample :
    ¬C2_claimed ∧
    forwardPhaseA { initState with target_chat_id := some 5 } 5 =
      some (Outcome.notReady "Source not set. Use /setsource",
            ["⚠️ Not ready to forward: Source not set. Use /setsource"]) ∧
    (ready_to_forward (cmd_reset readyS)).1 = false ∧
    (forwardGuardedBody envOk (cmd_reset readyS)).outcome = Outcome.guardRecheckFail ∧
    (forwardGuardedBody envOk (cmd_reset readyS)).replies = [] := by
  refine ⟨fun h => ?_, by decide, by decide, by decide, by decide⟩
  have h2 := (h envOk (cmd_reset readyS) (by decide)).1
  exact absurd h2 (by decide)

/-- C2 amended: the chat-origin check and the readiness gate (with its
"not ready: reason" reply) run before the guard is acquired; after the
guard is acquired only the presence of the cursor and the two range bounds
is re-validated, returning silently — with no reply and no external call —
when any of them is unset; the exhaustion check and all external calls do
run inside the guard. -/
theorem C2_amended_guard_structure : ∀ env s c,
    ((ready_to_forward s).1 = false → s.target_chat_id = some c →
      forward_next_if_ready env s c =
        { state := s, outcome := Outcome.notReady (ready_to_forward s).2, calls := [],
          replies := ["⚠️ Not ready to forward: " ++ (ready_to_forward s).2] }) ∧
    (s.next_id = none ∨ s.start_id = none ∨ s.end_id = none →
      forwardGuardedBody env s =
        { state := s, outcome := Outcome.guardRecheckFail, calls := [], replies := [] }) := by
  intro env s c
  constructor
  · intro hr ht
    rcases phaseA_matched s c ht with hp | ⟨w, hp⟩
    · rw [phaseA_none_iff] at hp
      rw [hp.2] at hr
      cases hr
    · have hw : (ready_to_forward s).2 = w := by
        unfold forwardPhaseA at hp
        rw [ht] at hp
        have hcc : ¬(c ≠ c) := fun hh => hh rfl
        rcases hg : ready_to_forward s with ⟨b, w2⟩
        rw [hg] at hp
        cases b <;> simp [hcc] at hp
        · exact hp.1
      unfold forward_next_if_ready
      rw [hp, hw]
  · intro h
    rcases hn : s.next_id with _ | n <;> rcases ha : s.start_id with _ | a <;>
      rcases he : s.end_id with _ | e <;> simp_all [forwardGuardedBody]

/-- Witness for C2's amended theorem: with only the target configured, the
attempt returns the not-ready report without mutating state or calling
out; the guarded body on the fresh initial state returns silently. -/
theorem C2_witness :
    (ready_to_forward { initState with target_chat_id := some 5 }).1 = false ∧
    forward_next_if_ready envOk { initState with target_chat_id := some 5 } 5 =
      { state := { initState with target_chat_id := some 5 },
        outcome := Outcome.notReady "Source not set. Use /setsource", calls := [],
        replies := ["⚠️ Not ready to forward: Source not set. Use /setsource"] } ∧
    forwardGuardedBody envOk initState =
      { state := initState, outcome := Outcome.guardRecheckFail, calls := [],
        replies := [] } := by
  refine ⟨by decide, ?_, ?_⟩
  · exact (C2_amended_guard_structure envOk { initState with target_chat_id := some 5 } 5).1
      (by decide) rfl
  · exact (C2_amended_guard_structure envOk initState 5).2 (Or.inl rfl)

/-- C3: the rate-limited outcome is the only failing outcome that made an
external call yet left the cursor (indeed the whole state) unchanged;
success, a missing message, and any other external error advance the
cursor by exactly one; the early returns (wrong chat, not ready, in-guard
re-check, range exhausted) leave the entire state unchanged. -/
theorem C3_rate_limited_only_non_advancing : ∀ env s c,
    (∀ d, (forward_next_if_ready env s c).outcome = Outcome.rateLimited d →
      (forward_next_if_ready env s c).state = s) ∧
    (∀ i, ((forward_next_if_ready env s c).outcome = Outcome.forwarded i ∨
           (forward_next_if_ready env s c).outcome = Outcome.skippedMissing i ∨
           (∃ m, (forward_next_if_ready env s c).outcome = Outcome.rpcErrorOn i m) ∨
           (∃ m, (forward_next_if_ready env s c).outcome = Outcome.unexpectedErrorOn i m)) →
      s.next_id = some i ∧
        (forward_next_if_ready env s c).state = { s with next_id := some (i + 1) }) ∧
    (((forward_next_if_ready env s c).outcome = Outcome.wrongChat ∨
      (∃ w, (forward_next_if_ready env s c).outcome = Outcome.notReady w) ∨
      (forward_next_if_ready env s c).outcome = Outcome.guardRecheckFail ∨
      (forward_next_if_ready env s c).outcome = Outcome.rangeExhausted) →
      (forward_next_if_ready env s c).state = s) ∧
    ((forward_next_if_ready env s c).calls ≠ [] →
      (forward_next_if_ready env s c).state = s →
      ∃ d, (forward_next_if_ready env s c).outcome = Outcome.rateLimited d) := by
  intro env s c
  exact ⟨fun d h => F_rateLimited env s c d h,
         fun i h => F_advancing env s c i h,
         fun h => F_unchanged env s c h,
         fun hc hs => F_calls_unchanged env s c hc hs⟩

/-- Witness for C3: a flood-wait leaves the concrete ready state unchanged,
while an `RPCError` on the copy advances the cursor from 10 to 11. -/
theorem C3_witness :
    (forward_next_if_ready envFlood readyS 200).outcome = Outcome.rateLimited 5 ∧
    (forward_next_if_ready envFlood readyS 200).state = readyS ∧
    (forward_next_if_ready envRpc readyS 200).state =
      { readyS with next_id := some 11 } := by
  refine ⟨by decide,
    (C3_rate_limited_only_non_advancing envFlood readyS 200).1 5 (by decide), ?_⟩
  have h := (C3_rate_limited_only_non_advancing envRpc readyS 200).2.1 10
    (Or.inr (Or.inr (Or.inl ⟨"boom", by decide⟩)))
  rw [h.2]
  decide

/-- C4: when the fetch at cursor `N` yields an empty result, the attempt
replies with the skipping notice, advances the cursor to `N + 1`, and the
only external call made is the fetch — no copy call occurs for `N`. -/
theorem C4_missing_skips_and_advances : ∀ env s src t a e n,
    s.source_chat_id = some src → s.target_chat_id = some t →
    s.start_id = some a → s.end_id = some e → s.next_id = some n → n ≤ e →
    env.fetch (some src) n = FetchResult.missing →
    forward_next_if_ready env s t =
      { state := { s with next_id := some (n + 1) },
        outcome := Outcome.skippedMissing n,
        calls := [ExtCall.getMessages (some src) n],
        replies := ["⚠️ Skipping missing message ID " ++ toString n] } := by
  intro env s src t a e n hsrc ht ha he hn hle hf
  exact F_missing env s src t a e n hsrc ht ha he hn hle hf

/-- Witness for C4 at the concrete ready state with cursor 10. -/
theorem C4_witness :
    envMissing.fetch (some 100) 10 = FetchResult.missing ∧
    forward_next_if_ready envMissing readyS 200 =
      { state := { readyS with next_id := some (10 + 1) },
        outcome := Outcome.skippedMissing 10,
        calls := [ExtCall.getMessages (some 100) 10],
        replies := ["⚠️ Skipping missing message ID " ++ toString (10 : Int)] } :=
  ⟨rfl, C4_missing_skips_and_advances envMissing readyS 100 200 10 12 10
    rfl rfl rfl rfl rfl (by decide) rfl⟩

/-- C5: the invariant "if the cursor is set then both range bounds are set
and `rangeStart ≤ cursor`" is preserved by every configuration command and
by every outcome of a forward attempt. -/
theorem C5_invariant_preserved : ∀ s, StInv s →
    (∀ args, StInv (cmd_set_range s args).1) ∧
    (∀ r, StInv (cmd_set_source s r)) ∧
    (∀ r, StInv (cmd_set_target s r)) ∧
    (∀ args, StInv (cmd_set_keyword s args).1) ∧
    StInv (cmd_reset s) ∧
    (∀ env c, StInv (forward_next_if_ready env s c).state) := by
  intro s hInv
  refine ⟨?_, ?_, ?_, ?_, ?_, ?_⟩
  · intro args
    rcases args with _ | ⟨c0, args⟩
    · exact hInv
    rcases args with _ | ⟨sa, args⟩
    · exact hInv
    rcases args with _ | ⟨sb, rest⟩
    · exact hInv
    rcases hpa : pyInt sa with _ | a <;> rcases hpb : pyInt sb with _ | b <;>
      simp only [cmd_set_range, hpa, hpb]
    · exact hInv
    · exact hInv
    · exact hInv
    · intro n h
      have h2 : some (min a b) = some n := h
      injection h2 with h2
      exact ⟨min a b, max a b, rfl, rfl, by omega⟩
  · intro r
    rcases r with _ | cid
    · exact hInv
    · exact fun n h => hInv n h
  · intro r
    rcases r with _ | cid
    · exact hInv
    · exact fun n h => hInv n h
  · intro args
    rcases args with _ | ⟨c0, _ | ⟨a2, rest⟩⟩
    · exact hInv
    · exact hInv
    · exact fun n h => hInv n h
  · exact fun n h => Option.noConfusion h
  · intro env c
    rcases F_cases env s c with h | ⟨n, hn, h⟩
    · rw [h]; exact hInv
    · rw [h]
      intro m hm
      have hm2 : some (n + 1) = some m := hm
      injection hm2 with hm2
      obtain ⟨lo, hi, hlo, hhi, hle⟩ := hInv n hn
      exact ⟨lo, hi, hlo, hhi, by omega⟩

/-- Witness for C5 at the concrete ready state and a successful forward. -/
theorem C5_witness :
    StInv readyS ∧ StInv (forward_next_if_ready envOk readyS 200).state := by
  have h1 : StInv readyS := by
    intro n hn
    have hn2 : some (10 : Int) = some n := hn
    injection hn2 with hn2
    exact ⟨10, 12, rfl, rfl, by omega⟩
  exact ⟨h1, (C5_invariant_preserved readyS h1).2.2.2.2.2 envOk 200⟩

/-- C6: every forward attempt leaves source, target, both range bounds,
the keyword and the custom replies unchanged, and across any sequence of
forward attempts the cursor is monotonically non-decreasing (an unset
cursor stays unset) while all other fields are unchanged. -/
theorem C6_forward_mutates_only_cursor :
    (∀ env s c,
      (forward_next_if_ready env s c).state.source_chat_id = s.source_chat_id ∧
      (forward_next_if_ready env s c).state.target_chat_id = s.target_chat_id ∧
      (forward_next_if_ready env s c).state.start_id = s.start_id ∧
      (forward_next_if_ready env s c).state.end_id = s.end_id ∧
      (forward_next_if_ready env s c).state.keyword = s.keyword ∧
      (forward_next_if_ready env s c).state.custom_replies = s.custom_replies ∧
      cursorLE s.next_id (forward_next_if_ready env s c).state.next_id) ∧
    (∀ env s cs,
      (runTriggers env s cs).1.source_chat_id = s.source_chat_id ∧
      (runTriggers env s cs).1.target_chat_id = s.target_chat_id ∧
      (runTriggers env s cs).1.start_id = s.start_id ∧
      (runTriggers env s cs).1.end_id = s.end_id ∧
      (runTriggers env s cs).1.keyword = s.keyword ∧
      (runTriggers env s cs).1.custom_replies = s.custom_replies ∧
      cursorLE s.next_id (runTriggers env s cs).1.next_id) := by
  constructor
  · intro env s c
    obtain ⟨h1, h2, h3, h4, h5, h6⟩ := F_frame env s c
    exact ⟨h1, h2, h3, h4, h5, h6, F_cursorLE env s c⟩
  · intro env s cs
    exact runTriggers_frame_mono env cs s

/-- C7: for every pair of integer inputs, `setrange` sets the range to the
normalized `(min, max)` pair and resets the cursor to the lower bound. -/
theorem C7_set_range_normalizes : ∀ s c0 sa sb rest a b,
    pyInt sa = some a → pyInt sb = some b →
    (cmd_set_range s (c0 :: sa :: sb :: rest)).1 =
      { s with start_id := some (min a b), end_id := some (max a b),
               next_id := some (min a b) } := by
  intro s c0 sa sb rest a b hpa hpb
  simp only [cmd_set_range, hpa, hpb]

/-- Witness for C7 with reversed inputs 25 and 7. -/
theorem C7_witness :
    pyInt "25" = some 25 ∧ pyInt " 7" = some 7 ∧
    (cmd_set_range initState ["setrange", "25", " 7"]).1 =
      { initState with start_id := some (min 25 7), end_id := some (max 25 7),
                       next_id := some (min 25 7) } :=
  ⟨by decide, by decide,
   C7_set_range_normalizes initState "setrange" "25" " 7" [] 25 7
     (by decide) (by decide)⟩

/-- C8: the readiness gate returns ready exactly when all fields are set,
and otherwise reports exactly the reason of the first failing check in the
fixed order source, target, range (either bound), cursor. It is a pure
function of the state (it is modelled as one because the Python function
only reads `State`). -/
theorem C8_readiness_gate_first_failing : ∀ s : State,
    (ready_to_forward s = (true, "OK") ↔
      s.source_chat_id ≠ none ∧ s.target_chat_id ≠ none ∧ s.start_id ≠ none ∧
        s.end_id ≠ none ∧ s.next_id ≠ none) ∧
    (ready_to_forward s = (false, "Source not set. Use /setsource") ↔
      s.source_chat_id = none) ∧
    (ready_to_forward s = (false, "Target not set. Use /settarget") ↔
      s.source_chat_id ≠ none ∧ s.target_chat_id = none) ∧
    (ready_to_forward s = (false, "Range not set. Use /setrange <first_id> <last_id>") ↔
      s.source_chat_id ≠ none ∧ s.target_chat_id ≠ none ∧
        (s.start_id = none ∨ s.end_id = none)) ∧
    (ready_to_forward s = (false, "Internal: next_id not initialized") ↔
      s.source_chat_id ≠ none ∧ s.target_chat_id ≠ none ∧ s.start_id ≠ none ∧
        s.end_id ≠ none ∧ s.next_id = none) := by
  intro s
  unfold ready_to_forward
  split_ifs with h1 h2 h3 h4 <;>
    refine ⟨?_, ?_, ?_, ?_, ?_⟩ <;> simp_all [Prod.mk.injEq] <;> tauto

/-- C9: the forward path (the call that gets past the wrong-chat check of
`forward_next_if_ready`) is taken exactly when the message has text, the
keyword is non-empty, the lowercased keyword occurs in the lowercased
text, and the message's chat is the configured target; a message with no
text or no configured keyword triggers no forward call at all. -/
theorem C9_trigger_detection : ∀ env s c text,
    ((∃ r, (on_text env s c text).2 = some r ∧ r.outcome ≠ Outcome.wrongChat) ↔
      (text ≠ "" ∧ s.keyword ≠ "" ∧ strIn (pyLower s.keyword) (pyLower text) = true ∧
       s.target_chat_id = some c)) ∧
    (text = "" → on_text env s c text = ([], none)) ∧
    (s.keyword = "" → (on_text env s c text).2 = none) := by
  intro env s c text
  refine ⟨⟨?_, ?_⟩, ?_, ?_⟩
  · rintro ⟨r, hr, ho⟩
    by_cases htext : text = ""
    · rw [htext] at hr
      simp [on_text] at hr
    by_cases hcond : s.keyword ≠ "" ∧ strIn (pyLower s.keyword) (pyLower text) = true
    · have hrF : r = forward_next_if_ready env s c := by
        simp only [on_text, if_neg htext, if_pos hcond] at hr
        exact (Option.some.injEq _ _ ▸ hr).symm
      subst hrF
      exact ⟨htext, hcond.1, hcond.2, F_target_of_not_wrongChat env s c ho⟩
    · exfalso
      simp only [on_text, if_neg htext, if_neg hcond] at hr
      cases hr
  · rintro ⟨htext, hkw, hsub, ht⟩
    refine ⟨forward_next_if_ready env s c, ?_, F_not_wrongChat env s c ht⟩
    simp only [on_text, if_neg htext, if_pos (And.intro hkw hsub)]
  · intro htext
    rw [htext]
    simp [on_text]
  · intro hkw
    by_cases htext : text = ""
    · simp [on_text, htext]
    · simp [on_text, htext, hkw]

/-- Witness for C9: empty text triggers nothing; the keyword "Completed"
inside a longer text from the target chat reaches the forward path. -/
theorem C9_witness :
    on_text envOk readyS 200 "" = ([], none) ∧
    (∃ r, (on_text envOk readyS 200 "Task Completed ✅").2 = some r ∧
       r.outcome ≠ Outcome.wrongChat) := by
  constructor
  · exact (C9_trigger_detection envOk readyS 200 "").2.1 rfl
  · exact (C9_trigger_detection envOk readyS 200 "Task Completed ✅").1.mpr
      ⟨by decide, by decide, by decide, rfl⟩

/-- C10: if either `setrange` argument fails integer parsing — including
when the first parses and the second does not — the command replies with
the parse-error notice and leaves the whole state unchanged. -/
theorem C10_parse_failure_leaves_state : ∀ s c0 sa sb rest,
    pyInt sa = none ∨ pyInt sb = none →
    cmd_set_range s (c0 :: sa :: sb :: rest) =
      (s, "❌ first_id and last_id must be integers") := by
  intro s c0 sa sb rest h
  rcases h with h | h
  · simp only [cmd_set_range, h]
  · rcases hpa : pyInt sa with _ | a <;> simp only [cmd_set_range, hpa, h]

/-- Witness for C10: the first argument parses, the second does not. -/
theorem C10_witness :
    pyInt "5" = some 5 ∧ pyInt "x7" = none ∧
    cmd_set_range readyS ["setrange", "5", "x7"] =
      (readyS, "❌ first_id and last_id must be integers") :=
  ⟨by decide, by decide,
   C10_parse_failure_leaves_state readyS "setrange" "5" "x7" [] (Or.inr (by decide))⟩

end KFB
